import Mathlib

/-!
Shallow embedding of the doc_processor repository.

The repository is a thin façade over the docling document-conversion
library.  Its own logic lives in three python files:

* src/processor.py — a capability-tier configurator building
  PdfPipelineOptions, plus a single-document handler used by the HTTP app;
* src/handler.py — a serverless batch handler iterating over source URLs
  with per-item error isolation;
* src/app.py — the FastAPI wrapper exposing the single-document handler.

External collaborators (httpx, docling, the web framework) are modelled as
data: a World record supplies, for each URL, the outcome of fetching it,
and for each fetched byte payload the outcome of the conversion engine.
Converted documents are modelled as records carrying exactly the pieces
the repository reads back out of them (text items with labels, pictures,
tables, code items, pages, and the four export serializations).
-/

namespace DocProc

/-! ## Python string primitives

Python string operations used by the code, embedded over the character
list of a Lean String so that the kernel can evaluate them on literals.
-/

/-- Python str.lower for the ASCII alphabet (all strings the code compares
after lowering are ASCII keywords such as "markdown" or "high"). -/
def pyLower (s : String) : String := ⟨s.data.map Char.toLower⟩

/-- Python str.split(sep) on a character list: splits at every occurrence
of the separator, keeping empty pieces, and never returns an empty list. -/
def pySplitChar (sep : Char) : List Char → List (List Char)
  | [] => [[]]
  | c :: cs =>
    let r := pySplitChar sep cs
    if c = sep then [] :: r
    else
      match r with
      | [] => [[c]]
      | h :: t => (c :: h) :: t

/-- Python source.split("/")[-1] if "/" in source else "document"
(src/handler.py line 105, src/processor.py line 121). -/
def filenameOf (source : String) : String :=
  if source.data.contains ('/' : Char) then
    ⟨((pySplitChar ('/' : Char) source.data).getLastD [])⟩
  else "document"

/-! ## Pipeline options (src/processor.py lines 41-87)

PdfPipelineOptions is a docling record; we model the fields this
repository sets or reports on.  The field values of `default` are the
library defaults; every field a claim mentions is explicitly assigned in
each branch of the configurator, so no claim depends on these defaults.
-/

/-- OCR engine option objects as constructed by the code:
EasyOcrOptions(force_full_page_ocr, use_gpu) in src/handler.py and
TesseractCliOcrOptions(force_full_page_ocr) in src/processor.py. -/
inductive OcrOptions where
  | easyOcr (force_full_page_ocr : Bool) (use_gpu : Bool)
  | tesseractCli (force_full_page_ocr : Bool)
  deriving DecidableEq, Repr

/-- TableFormer recognition mode. -/
inductive TableFormerMode where
  | fast
  | accurate
  deriving DecidableEq, Repr

/-- Picture-description model choice: smolvlm_picture_description in
src/processor.py, granite_picture_description in src/handler.py. -/
inductive PictureDescriptionModel where
  | smolvlm
  | granite
  deriving DecidableEq, Repr

structure TableStructureOptions where
  mode : TableFormerMode
  do_cell_matching : Bool
  deriving DecidableEq, Repr

structure PdfPipelineOptions where
  do_code_enrichment : Bool
  do_formula_enrichment : Bool
  do_picture_classification : Bool
  do_picture_description : Bool
  generate_picture_images : Bool
  images_scale : Nat
  do_table_structure : Bool
  do_ocr : Bool
  table_structure_options : TableStructureOptions
  ocr_options : OcrOptions
  picture_description_options : Option PictureDescriptionModel
  deriving DecidableEq, Repr

/-- Library defaults for PdfPipelineOptions() (external to this
repository; the configurator overrides every claim-relevant field). -/
def PdfPipelineOptions.default : PdfPipelineOptions where
  do_code_enrichment := false
  do_formula_enrichment := false
  do_picture_classification := false
  do_picture_description := false
  generate_picture_images := false
  images_scale := 1
  do_table_structure := true
  do_ocr := true
  table_structure_options := { mode := .fast, do_cell_matching := true }
  ocr_options := .easyOcr false false
  picture_description_options := none

/-- src/processor.py lines 41-87: return pipeline options tuned for the
capability tier.  Each branch starts from PdfPipelineOptions() and sets
fields exactly as the python code does. -/
def _build_pipeline_options (capability : String) : PdfPipelineOptions :=
  if capability = "low" then
    { PdfPipelineOptions.default with
      do_code_enrichment := false
      do_formula_enrichment := false
      generate_picture_images := false
      do_picture_classification := false
      do_picture_description := false
      do_table_structure := true
      do_ocr := true
      ocr_options := .tesseractCli true }
  else if capability = "medium" then
    { PdfPipelineOptions.default with
      do_code_enrichment := true
      do_formula_enrichment := true
      generate_picture_images := false
      do_picture_classification := false
      do_picture_description := false
      do_table_structure := true
      do_ocr := true
      ocr_options := .tesseractCli true }
  else
    { PdfPipelineOptions.default with
      do_code_enrichment := true
      do_formula_enrichment := true
      generate_picture_images := true
      images_scale := 2
      do_picture_classification := true
      do_picture_description := true
      picture_description_options := some .smolvlm
      do_table_structure := true
      table_structure_options := { mode := .accurate, do_cell_matching := true }
      do_ocr := true
      ocr_options := .tesseractCli true }

/-! ## Capability tier normalization (src/processor.py lines 34-39) -/

def VALID_CAPABILITIES : List String := ["low", "medium", "high"]

/-- src/processor.py lines 34-39: DEVICE_CAPABILITY is the lowercased
environment value; unknown values print a warning and fall back to
"high".  Returns the effective tier together with whether the warning
was printed. -/
def normalizeCapability (raw : String) : String × Bool :=
  let c := pyLower raw
  if c ∈ VALID_CAPABILITIES then (c, false) else ("high", true)

/-! ## Metadata enrichment-flag table (src/processor.py lines 149-174) -/

structure EnrichmentFlags where
  code_enrichment : Bool
  formula_enrichment : Bool
  picture_classification : Bool
  picture_description : Bool
  table_structure : Bool
  ocr : Bool
  deriving DecidableEq, Repr

/-- src/processor.py lines 149-174: the enrichment_flags dict, indexed by
DEVICE_CAPABILITY.  The dict has exactly the keys "low", "medium" and
"high", and is only ever indexed by the normalized capability. -/
def enrichment_flags (tier : String) : EnrichmentFlags :=
  if tier = "low" then
    { code_enrichment := false, formula_enrichment := false
      picture_classification := false, picture_description := false
      table_structure := false, ocr := false }
  else if tier = "medium" then
    { code_enrichment := true, formula_enrichment := true
      picture_classification := false, picture_description := false
      table_structure := true, ocr := true }
  else
    { code_enrichment := true, formula_enrichment := true
      picture_classification := true, picture_description := true
      table_structure := true, ocr := true }

/-- Projection of the six metadata-reported toggles out of the pipeline
options actually built, for comparison with enrichment_flags. -/
def pipelineToggles (o : PdfPipelineOptions) : EnrichmentFlags :=
  { code_enrichment := o.do_code_enrichment
    formula_enrichment := o.do_formula_enrichment
    picture_classification := o.do_picture_classification
    picture_description := o.do_picture_description
    table_structure := o.do_table_structure
    ocr := o.do_ocr }

/-! ## Converted documents (as read back by the repository)

A docling document is external; the repository reads from it only:
doc.texts (items whose optional label may be "FORMULA"), the optional
collections doc.pictures / doc.tables / doc.code / doc.pages (hasattr
checks model as Option), and the four export methods (serializers of the
external library, modelled as data). -/

structure TextItem where
  label : Option String
  deriving DecidableEq, Repr

structure Document where
  texts : List TextItem := []
  pictures : Option (List Unit) := none
  tables : Option (List Unit) := none
  code : Option (List Unit) := none
  pages : Option (List Unit) := none
  export_to_markdown : String := ""
  export_to_html : String := ""
  export_to_json : String := ""
  export_to_text : String := ""
  deriving DecidableEq, Repr

/-! ## Export format selection (src/handler.py lines 119-129,
src/processor.py lines 135-145 — the two chains are identical) -/

/-- The if/elif chain choosing which export method of the document to
call, branching on export_format.lower(). -/
def exportContent (fmt : String) (doc : Document) : String :=
  if pyLower fmt = "markdown" then doc.export_to_markdown
  else if pyLower fmt = "html" then doc.export_to_html
  else if pyLower fmt = "json" then doc.export_to_json
  else if pyLower fmt = "text" then doc.export_to_text
  else doc.export_to_markdown

/-! ## Enrichment statistics (src/handler.py lines 147-170,
src/processor.py lines 185-208 — identical code) -/

structure EnrichmentStats where
  code_blocks : Nat
  formulas : Nat
  images : Nat
  tables : Nat
  deriving DecidableEq, Repr

/-- Body of the loop over doc.texts: increment the formula count when the
item has a label equal to "FORMULA". -/
def statsStep (s : EnrichmentStats) (item : TextItem) : EnrichmentStats :=
  match item.label with
  | some l => if l = "FORMULA" then { s with formulas := s.formulas + 1 } else s
  | none => s

/-- The enrichment_stats dict: starts at all zeros, counts formulas over
doc.texts, then overwrites images / tables / code_blocks with the lengths
of the corresponding collections when present. -/
def enrichment_stats (doc : Document) : EnrichmentStats :=
  let s0 : EnrichmentStats := { code_blocks := 0, formulas := 0, images := 0, tables := 0 }
  let s1 := doc.texts.foldl statsStep s0
  let s2 := match doc.pictures with
    | some ps => { s1 with images := ps.length }
    | none => s1
  let s3 := match doc.tables with
    | some ts => { s2 with tables := ts.length }
    | none => s2
  match doc.code with
  | some cs => { s3 with code_blocks := cs.length }
  | none => s3

/-- Boolean test used to state the formula count: the item has label
"FORMULA". -/
def isFormulaItem (item : TextItem) : Bool := item.label == some "FORMULA"

/-! ## External world

Outcomes of the two external effectful calls.  fetch maps a URL to either
a network-error message (httpx.RequestError) or the response body;
convert maps (filename, body, limit kwargs) to either an exception
message or a converted document. -/

structure ConvertArgs where
  max_num_pages : Option Nat
  max_file_size : Option Nat
  deriving DecidableEq, Repr

structure World where
  fetch : String → Except String String
  convert : String → String → ConvertArgs → Except String Document

/-! ## Serverless batch handler (src/handler.py lines 73-204) -/

/-- The job input payload: each field read with input_data.get, so every
field is optional (none models an absent key, and for max_pages also an
explicit null). -/
structure JobInput where
  sources : Option (List String) := none
  export_format : Option String := none
  max_pages : Option Nat := none
  max_file_size : Option Nat := none
  include_images : Option Bool := none

/-- src/handler.py line 80: export_format defaults to "markdown". -/
def effExportFormat (i : JobInput) : String := i.export_format.getD "markdown"

/-- src/handler.py line 82: max_file_size defaults to 100 MiB. -/
def effMaxFileSize (i : JobInput) : Nat := i.max_file_size.getD (100 * 1024 * 1024)

/-- src/handler.py lines 109-113: the convert kwargs dict; a key is added
only when the configured value is truthy (not None and not zero). -/
def convertArgsOf (i : JobInput) : ConvertArgs :=
  { max_num_pages :=
      match i.max_pages with
      | some n => if n = 0 then none else some n
      | none => none
    max_file_size :=
      if effMaxFileSize i = 0 then none else some (effMaxFileSize i) }

/-- src/handler.py lines 137-144: the hardcoded enrichments_applied dict
(every flag reported true). -/
def allEnrichmentsApplied : EnrichmentFlags :=
  { code_enrichment := true, formula_enrichment := true
    picture_classification := true, picture_description := true
    table_structure := true, ocr := true }

/-- The metadata dict built for a successful item
(src/handler.py lines 131-170). -/
structure Metadata where
  source : String
  filename : String
  page_count : Option Nat
  export_format : String
  enrichments_applied : EnrichmentFlags
  enrichment_stats : EnrichmentStats
  deriving DecidableEq, Repr

def mkMetadata (source fmt : String) (doc : Document) : Metadata :=
  { source := source
    filename := filenameOf source
    page_count := doc.pages.map List.length
    export_format := fmt
    enrichments_applied := allEnrichmentsApplied
    enrichment_stats := enrichment_stats doc }

/-- One entry of the results list: a success dict, a failed dict
(status "failed"), or the empty-source dict, which carries no status key
(src/handler.py lines 91-93). -/
inductive ItemResult where
  | success (content : String) (metadata : Metadata)
  | failed (error : String) (source : String)
  | emptySource (source : String)
  deriving DecidableEq, Repr

/-- r.get("status") == "success" (src/handler.py line 202). -/
def isSuccess : ItemResult → Bool
  | .success _ _ => true
  | _ => false

/-- r.get("status") == "failed" (src/handler.py line 203). -/
def isFailed : ItemResult → Bool
  | .failed _ _ => true
  | _ => false

/-- The per-source loop body (src/handler.py lines 90-197): skip empty
sources with an "Empty source" record; otherwise fetch, convert with
limits, export, and build metadata; httpx.RequestError becomes an
"HTTP request failed" record, any other exception a "Processing failed"
record, both attached to this item only. -/
def processSource (i : JobInput) (w : World) (source : String) : ItemResult :=
  if source = "" then .emptySource source
  else
    match w.fetch source with
    | .error m => .failed ("HTTP request failed: " ++ m) source
    | .ok bytes =>
      match w.convert (filenameOf source) bytes (convertArgsOf i) with
      | .error m => .failed ("Processing failed: " ++ m) source
      | .ok doc =>
        .success (exportContent (effExportFormat i) doc)
          (mkMetadata source (effExportFormat i) doc)

/-- The handler response: the early 400 error dict when no sources were
provided, or the batch dict with output list, status_code 200 and the two
aggregate counts. -/
inductive HandlerResult where
  | errorResp (error : String) (status_code : Nat)
  | batch (output : List ItemResult) (status_code : Nat)
      (total_processed : Nat) (total_failed : Nat)
  deriving DecidableEq, Repr

/-- The results list the loop accumulates, one entry per source in input
order. -/
def batchOutputs (i : JobInput) (w : World) : List ItemResult :=
  (i.sources.getD []).map (processSource i w)

/-- src/handler.py lines 73-204: the serverless handler. -/
def handler (i : JobInput) (w : World) : HandlerResult :=
  let sources := i.sources.getD []
  if sources.isEmpty then .errorResp "No sources provided" 400
  else
    let results := sources.map (processSource i w)
    .batch results 200 (results.countP isSuccess) (results.countP isFailed)

/-- Trace of the URLs the handler attempts to fetch: none when the
no-sources guard returns early, otherwise exactly the non-empty sources
(the loop continues past empty ones before the client.get call). -/
def attemptedFetches (i : JobInput) : List String :=
  let sources := i.sources.getD []
  if sources.isEmpty then [] else sources.filter (fun s => s ≠ "")

/-! ## Single-document path (src/processor.py lines 104-222 and
src/app.py lines 26-56) -/

/-- src/processor.py lines 107-110: the configuration of the
single-document handler is fixed, not taken from any request field. -/
def processorExportFormat : String := "markdown"

def processorMaxPages : Option Nat := none

def processorMaxFileSize : Nat := 100 * 1024 * 1024

/-- src/processor.py lines 125-129: convert kwargs of the single-document
handler (same truthiness rules as the batch handler). -/
def processorConvertArgs : ConvertArgs :=
  { max_num_pages :=
      match processorMaxPages with
      | some n => if n = 0 then none else some n
      | none => none
    max_file_size :=
      if processorMaxFileSize = 0 then none else some processorMaxFileSize }

/-- Metadata of the single-document handler
(src/processor.py lines 176-208): includes the device capability and the
enrichment_flags table entry for it. -/
structure ProcMetadata where
  source : String
  filename : String
  page_count : Option Nat
  export_format : String
  device_capability : String
  enrichments_applied : EnrichmentFlags
  enrichment_stats : EnrichmentStats
  deriving DecidableEq, Repr

structure ProcResult where
  content : String
  metadata : ProcMetadata
  status : String
  deriving DecidableEq, Repr

/-- src/processor.py lines 104-222: the single-document handler.  tier is
the module-level normalized DEVICE_CAPABILITY.  Errors are re-raised
(Except.error) with the same message prefixes as the batch handler. -/
def processorHandler (tier : String) (source : String) (w : World) :
    Except String ProcResult :=
  match w.fetch source with
  | .error m => .error ("HTTP request failed: " ++ m)
  | .ok bytes =>
    match w.convert (filenameOf source) bytes processorConvertArgs with
    | .error m => .error ("Processing failed: " ++ m)
    | .ok doc =>
      .ok { content := exportContent processorExportFormat doc
            metadata :=
              { source := source
                filename := filenameOf source
                page_count := doc.pages.map List.length
                export_format := processorExportFormat
                device_capability := tier
                enrichments_applied := enrichment_flags tier
                enrichment_stats := enrichment_stats doc }
            status := "success" }

/-- src/app.py lines 26-27: the process request model carries exactly one
field, the document URL. -/
structure ProcessRequest where
  document_url : String
  deriving DecidableEq, Repr

/-- src/app.py lines 40-56: the POST endpoint calls the single-document
handler with the request URL; any exception becomes an HTTP 500 error
with a "Document processing failed" detail. -/
def process_document (tier : String) (req : ProcessRequest) (w : World) :
    Except (Nat × String) ProcResult :=
  match processorHandler tier req.document_url w with
  | .ok r => .ok r
  | .error m => .error (500, "Document processing failed: " ++ m)

/-! ## Concrete fixtures used by witnesses and counterexamples -/

/-- A sample converted document with distinguishable export strings and a
few structural elements. -/
def sampleDoc : Document :=
  { texts := [{ label := some "FORMULA" }, { label := none }, { label := some "TEXT" }]
    pictures := some [(), ()]
    tables := some [()]
    code := none
    pages := some [(), (), ()]
    export_to_markdown := "md-export"
    export_to_html := "html-export"
    export_to_json := "json-export"
    export_to_text := "text-export" }

/-- A world in which every fetch fails with a network error. -/
def downWorld : World :=
  { fetch := fun _ => .error "connection refused"
    convert := fun _ _ _ => .error "unreachable" }

/-- A world in which every fetch returns a body and every conversion
yields sampleDoc. -/
def okWorld : World :=
  { fetch := fun _ => .ok "bytes"
    convert := fun _ _ _ => .ok sampleDoc }

/-- A world in which exactly the URL "http://h/bad" fails with a network
error and everything else fetches and converts to sampleDoc. -/
def oneBadWorld : World :=
  { fetch := fun s => if s = "http://h/bad" then .error "timeout" else .ok "bytes"
    convert := fun _ _ _ => .ok sampleDoc }

/-! ## Claim theorems -/

/-- C2: for each capability tier "low", "medium" and "high",
_build_pipeline_options returns exactly the table of enrichment toggles
of the source (code enrichment, formula enrichment, picture image
generation, picture classification, picture description, table
structure, OCR).  Determinism in the tier string alone is inherent: the
embedding is a pure function of that string. -/
theorem c2_build_pipeline_options_tier_table :
    ((_build_pipeline_options "low").do_code_enrichment = false ∧
     (_build_pipeline_options "low").do_formula_enrichment = false ∧
     (_build_pipeline_options "low").generate_picture_images = false ∧
     (_build_pipeline_options "low").do_picture_classification = false ∧
     (_build_pipeline_options "low").do_picture_description = false ∧
     (_build_pipeline_options "low").do_table_structure = true ∧
     (_build_pipeline_options "low").do_ocr = true) ∧
    ((_build_pipeline_options "medium").do_code_enrichment = true ∧
     (_build_pipeline_options "medium").do_formula_enrichment = true ∧
     (_build_pipeline_options "medium").generate_picture_images = false ∧
     (_build_pipeline_options "medium").do_picture_classification = false ∧
     (_build_pipeline_options "medium").do_picture_description = false ∧
     (_build_pipeline_options "medium").do_table_structure = true ∧
     (_build_pipeline_options "medium").do_ocr = true) ∧
    ((_build_pipeline_options "high").do_code_enrichment = true ∧
     (_build_pipeline_options "high").do_formula_enrichment = true ∧
     (_build_pipeline_options "high").generate_picture_images = true ∧
     (_build_pipeline_options "high").do_picture_classification = true ∧
     (_build_pipeline_options "high").do_picture_description = true ∧
     (_build_pipeline_options "high").do_table_structure = true ∧
     (_build_pipeline_options "high").do_ocr = true) := by
  decide

/-- C3: a DEVICE_CAPABILITY value whose lowercasing is outside
{"low", "medium", "high"} makes the effective tier "high" with the
warning printed; a value whose lowercasing is in the set is used
unchanged, with no warning. -/
theorem c3_capability_fallback (s : String) :
    (pyLower s ∉ VALID_CAPABILITIES → normalizeCapability s = ("high", true)) ∧
    (pyLower s ∈ VALID_CAPABILITIES → normalizeCapability s = (pyLower s, false)) := by
  constructor <;> intro h <;> simp [normalizeCapability, h]

/-- Witness for C3 at the unknown value "ULTRA" and the known value
"Low". -/
theorem c3_capability_fallback_witness :
    normalizeCapability "ULTRA" = ("high", true) ∧
    normalizeCapability "Low" = ("low", false) := by
  constructor
  · exact (c3_capability_fallback "ULTRA").1 (by decide)
  · rw [(c3_capability_fallback "Low").2 (by decide)]
    decide

/-- C4 (code bug): the metadata enrichment-flag table of
src/processor.py disagrees with the pipeline options actually built for
the "low" tier: the metadata reports table_structure and ocr as false
while _build_pipeline_options("low") enables both (the code comment says
the flags record what was actually enabled).  The tables agree for
"medium" and "high". -/
theorem c4_low_tier_flags_contradict_pipeline :
    (enrichment_flags "low").table_structure = false ∧
    (enrichment_flags "low").ocr = false ∧
    (_build_pipeline_options "low").do_table_structure = true ∧
    (_build_pipeline_options "low").do_ocr = true ∧
    pipelineToggles (_build_pipeline_options "low") ≠ enrichment_flags "low" ∧
    pipelineToggles (_build_pipeline_options "medium") = enrichment_flags "medium" ∧
    pipelineToggles (_build_pipeline_options "high") = enrichment_flags "high" := by
  decide

/-- C6: export selection branches only on the lowercased format string,
so any casing of "markdown", "html", "json" or "text" selects the
corresponding export of the converted document, and every other string
falls back to the markdown export. -/
theorem c6_export_selection_case_insensitive (s : String) (doc : Document) :
    (pyLower s = "markdown" → exportContent s doc = doc.export_to_markdown) ∧
    (pyLower s = "html" → exportContent s doc = doc.export_to_html) ∧
    (pyLower s = "json" → exportContent s doc = doc.export_to_json) ∧
    (pyLower s = "text" → exportContent s doc = doc.export_to_text) ∧
    (pyLower s ≠ "markdown" → pyLower s ≠ "html" → pyLower s ≠ "json" →
      pyLower s ≠ "text" → exportContent s doc = doc.export_to_markdown) := by
  refine ⟨?_, ?_, ?_, ?_, ?_⟩ <;> intros <;> simp_all [exportContent]

/-- Witness for C6: a mixed-case "HtMl" selects the html export, and the
unrecognized "yaml" falls back to the markdown export. -/
theorem c6_export_selection_witness :
    exportContent "HtMl" sampleDoc = sampleDoc.export_to_html ∧
    exportContent "yaml" sampleDoc = sampleDoc.export_to_markdown := by
  constructor
  · exact (c6_export_selection_case_insensitive "HtMl" sampleDoc).2.1 (by decide)
  · exact (c6_export_selection_case_insensitive "yaml" sampleDoc).2.2.2.2
      (by decide) (by decide) (by decide) (by decide)

/-- The formula-counting loop over doc.texts is a countP: folding
statsStep adds the number of FORMULA-labelled items to the formulas field
and leaves every other field unchanged. -/
theorem foldl_statsStep (l : List TextItem) (s : EnrichmentStats) :
    l.foldl statsStep s = { s with formulas := s.formulas + l.countP isFormulaItem } := by
  induction l generalizing s with
  | nil => simp
  | cons a l ih =>
    rw [List.foldl_cons, ih]
    cases h : a.label with
    | none => simp [statsStep, h, isFormulaItem, List.countP_cons]
    | some lab =>
      by_cases hl : lab = "FORMULA"
      · simp [statsStep, h, isFormulaItem, List.countP_cons, hl]
        omega
      · simp [statsStep, h, isFormulaItem, List.countP_cons, hl]

/-- C7: the enrichment_stats record equals the declarative counts: the
number of FORMULA-labelled text items, and the sizes of the picture,
table and code collections, each count 0 when the collection is absent. -/
theorem c7_enrichment_stats_counts (doc : Document) :
    enrichment_stats doc =
      { code_blocks := (doc.code.map List.length).getD 0
        formulas := doc.texts.countP isFormulaItem
        images := (doc.pictures.map List.length).getD 0
        tables := (doc.tables.map List.length).getD 0 } := by
  cases hp : doc.pictures <;> cases ht : doc.tables <;> cases hc : doc.code <;>
    simp [enrichment_stats, foldl_statsStep, hp, ht, hc]

/-! ## Batch handler: failure isolation and aggregate invariants -/

/-- The fetch of this source raises a network error in world w. -/
def fetchFails (w : World) (s : String) : Bool :=
  match w.fetch s with
  | .error _ => true
  | .ok _ => false

/-- The source fetches successfully and the conversion engine succeeds on
it under the limit kwargs of input i. -/
def convertsOk (i : JobInput) (w : World) (s : String) : Prop :=
  ∃ b d, w.fetch s = .ok b ∧ w.convert (filenameOf s) b (convertArgsOf i) = .ok d

/-- A non-empty source whose fetch raises a network error yields exactly
the failed record with the wrapped message, attached to that source. -/
theorem processSource_fetchError (i : JobInput) (w : World) (s m : String)
    (hne : s ≠ "") (h : w.fetch s = .error m) :
    processSource i w s = .failed ("HTTP request failed: " ++ m) s := by
  simp [processSource, hne, h]

/-- A non-empty source that fetches and converts successfully yields a
success record. -/
theorem processSource_success (i : JobInput) (w : World) (s : String)
    (hne : s ≠ "") (hok : convertsOk i w s) :
    isSuccess (processSource i w s) = true := by
  obtain ⟨b, d, hf, hc⟩ := hok
  simp [processSource, hne, hf, hc, isSuccess]

/-- Counting helper: the elements refuting p and those satisfying p
partition a list. -/
theorem countP_bnot_add_countP (p : α → Bool) (l : List α) :
    l.countP (fun a => !(p a)) + l.countP p = l.length := by
  induction l with
  | nil => simp
  | cons a l ih =>
    rw [List.countP_cons, List.countP_cons]
    cases h : p a <;> simp [h] <;> omega

/-- C1: in a batch whose sources are all non-empty, where exactly one
source fails its HTTP fetch with a network error and every other source
converts and exports successfully, the handler returns the full batch
with status 200, N-1 successes and 1 failure; the failing source yields
the wrapped error record attached to its own item, and every other item
is a success. -/
theorem c1_one_fetch_failure_is_isolated (i : JobInput) (w : World)
    (srcs : List String)
    (hs : i.sources.getD [] = srcs)
    (hne : ∀ s ∈ srcs, s ≠ "")
    (hone : srcs.countP (fetchFails w) = 1)
    (hok : ∀ s ∈ srcs, fetchFails w s = false → convertsOk i w s) :
    handler i w = .batch (srcs.map (processSource i w)) 200 (srcs.length - 1) 1 ∧
    (∀ s ∈ srcs, ∀ m, w.fetch s = .error m →
      processSource i w s = .failed ("HTTP request failed: " ++ m) s) ∧
    (∀ s ∈ srcs, fetchFails w s = false →
      isSuccess (processSource i w s) = true) := by
  have hnil : srcs ≠ [] := by
    intro h
    rw [h] at hone
    simp at hone
  have hempty : srcs.isEmpty = false := by
    cases srcs with
    | nil => exact absurd rfl hnil
    | cons a l => rfl
  have key : ∀ s ∈ srcs, isFailed (processSource i w s) = fetchFails w s ∧
      isSuccess (processSource i w s) = !(fetchFails w s) := by
    intro s hsm
    have hnes := hne s hsm
    cases hf : w.fetch s with
    | error m =>
      constructor <;> simp [processSource, hnes, hf, isFailed, isSuccess, fetchFails]
    | ok b =>
      obtain ⟨b2, d, hf2, hc⟩ := hok s hsm (by simp [fetchFails, hf])
      rw [hf] at hf2
      injection hf2 with hb
      subst hb
      constructor <;>
        simp [processSource, hnes, hf, hc, isFailed, isSuccess, fetchFails]
  have hc_failed : (srcs.map (processSource i w)).countP isFailed = 1 := by
    rw [List.countP_map]
    have hcongr : List.countP (isFailed ∘ processSource i w) srcs =
        List.countP (fetchFails w) srcs := by
      refine List.countP_congr ?_
      intro x hx
      simp [Function.comp_apply, (key x hx).1]
    rw [hcongr, hone]
  have hc_succ : (srcs.map (processSource i w)).countP isSuccess = srcs.length - 1 := by
    rw [List.countP_map]
    have hcongr : List.countP (isSuccess ∘ processSource i w) srcs =
        List.countP (fun s => !(fetchFails w s)) srcs := by
      refine List.countP_congr ?_
      intro x hx
      simp [Function.comp_apply, (key x hx).2]
    rw [hcongr]
    have h2 := countP_bnot_add_countP (fetchFails w) srcs
    omega
  have houtcome : handler i w = .batch (srcs.map (processSource i w)) 200
      ((srcs.map (processSource i w)).countP isSuccess)
      ((srcs.map (processSource i w)).countP isFailed) := by
    simp [handler, hs, hempty]
  refine ⟨?_, ?_, ?_⟩
  · rw [houtcome, hc_succ, hc_failed]
  · intro s hsm m hm
    exact processSource_fetchError i w s m (hne s hsm) hm
  · intro s hsm hff
    exact processSource_success i w s (hne s hsm) (hok s hsm hff)

/-- Concrete two-source job input used by the batch witnesses. -/
def twoSrcInput : JobInput := { sources := some ["http://h/good.pdf", "http://h/bad"] }

/-- Witness for C1: a concrete two-source batch in which exactly the URL
"http://h/bad" fails with a network timeout. -/
theorem c1_one_fetch_failure_witness :
    (handler twoSrcInput oneBadWorld =
      .batch (["http://h/good.pdf", "http://h/bad"].map
        (processSource twoSrcInput oneBadWorld)) 200
        ((["http://h/good.pdf", "http://h/bad"] : List String).length - 1) 1) ∧
    (∀ s ∈ (["http://h/good.pdf", "http://h/bad"] : List String), ∀ m,
      oneBadWorld.fetch s = .error m →
      processSource twoSrcInput oneBadWorld s =
        .failed ("HTTP request failed: " ++ m) s) ∧
    (∀ s ∈ (["http://h/good.pdf", "http://h/bad"] : List String),
      fetchFails oneBadWorld s = false →
      isSuccess (processSource twoSrcInput oneBadWorld s) = true) := by
  refine c1_one_fetch_failure_is_isolated twoSrcInput oneBadWorld
    ["http://h/good.pdf", "http://h/bad"] rfl (by decide) (by decide) ?_
  intro s hsm hff
  fin_cases hsm
  · exact ⟨"bytes", sampleDoc, rfl, rfl⟩
  · exact absurd hff (by decide)

/-- C5 counterexample: a non-empty sources list containing the empty
string.  The handler emits an "Empty source" record that carries no
status, so it is neither a success nor a failure, and the aggregate
counts 0 and 0 do not sum to the number of sources. -/
theorem c5_counterexample_empty_source :
    handler { sources := some [""] } downWorld =
      .batch [ItemResult.emptySource ""] 200 0 0 ∧
    isSuccess (ItemResult.emptySource "") = false ∧
    isFailed (ItemResult.emptySource "") = false ∧
    (0 + 0 : Nat) ≠ ([""] : List String).length := by
  refine ⟨by decide, rfl, rfl, by decide⟩

/-- C5 (amended): for a non-empty batch all of whose sources are
non-empty strings, the handler returns one outcome per source in input
order, every outcome is a success or a failure, and total_processed and
total_failed are the success and failure counts, summing to the number
of sources. -/
theorem c5_batch_totals_invariant (i : JobInput) (w : World) (srcs : List String)
    (hs : i.sources.getD [] = srcs)
    (hnil : srcs ≠ [])
    (hne : ∀ s ∈ srcs, s ≠ "") :
    handler i w = .batch (batchOutputs i w) 200
      ((batchOutputs i w).countP isSuccess) ((batchOutputs i w).countP isFailed) ∧
    (batchOutputs i w).length = srcs.length ∧
    (∀ j : Nat, (batchOutputs i w)[j]? = (srcs[j]?).map (processSource i w)) ∧
    (∀ r ∈ batchOutputs i w, isSuccess r = true ∨ isFailed r = true) ∧
    (batchOutputs i w).countP isSuccess + (batchOutputs i w).countP isFailed
      = srcs.length := by
  have hempty : srcs.isEmpty = false := by
    cases srcs with
    | nil => exact absurd rfl hnil
    | cons a l => rfl
  have hbo : batchOutputs i w = srcs.map (processSource i w) := by
    rw [batchOutputs, hs]
  have hdisj : ∀ r ∈ batchOutputs i w, isSuccess r = true ∨ isFailed r = true := by
    intro r hr
    rw [hbo] at hr
    obtain ⟨s, hsm, rfl⟩ := List.mem_map.mp hr
    have hnes := hne s hsm
    cases hf : w.fetch s with
    | error m =>
      right
      simp [processSource, hnes, hf, isFailed]
    | ok b =>
      cases hc : w.convert (filenameOf s) b (convertArgsOf i) with
      | error m =>
        right
        simp [processSource, hnes, hf, hc, isFailed]
      | ok doc =>
        left
        simp [processSource, hnes, hf, hc, isSuccess]
  have hlen : (batchOutputs i w).length = srcs.length := by
    rw [hbo, List.length_map]
  refine ⟨?_, hlen, ?_, hdisj, ?_⟩
  · simp [handler, batchOutputs, hs, hempty]
  · intro j
    rw [hbo, List.getElem?_map]
  · have hpt : ∀ r ∈ batchOutputs i w,
        isFailed r = true ↔ (!(isSuccess r)) = true := by
      intro r hr
      have hd := hdisj r hr
      cases r with
      | success c m => simp [isSuccess, isFailed]
      | failed e s => simp [isSuccess, isFailed]
      | emptySource s => simp [isSuccess, isFailed] at hd
    have hcongr : (batchOutputs i w).countP isFailed =
        (batchOutputs i w).countP (fun r => !(isSuccess r)) :=
      List.countP_congr hpt
    have hsum := countP_bnot_add_countP isSuccess (batchOutputs i w)
    omega

/-- Witness for C5 (amended) at a concrete two-source batch. -/
theorem c5_batch_totals_witness :
    handler twoSrcInput oneBadWorld = .batch (batchOutputs twoSrcInput oneBadWorld) 200
      ((batchOutputs twoSrcInput oneBadWorld).countP isSuccess)
      ((batchOutputs twoSrcInput oneBadWorld).countP isFailed) ∧
    (batchOutputs twoSrcInput oneBadWorld).length =
      (["http://h/good.pdf", "http://h/bad"] : List String).length ∧
    (∀ j : Nat, (batchOutputs twoSrcInput oneBadWorld)[j]? =
      ((["http://h/good.pdf", "http://h/bad"] : List String)[j]?).map
        (processSource twoSrcInput oneBadWorld)) ∧
    (∀ r ∈ batchOutputs twoSrcInput oneBadWorld,
      isSuccess r = true ∨ isFailed r = true) ∧
    (batchOutputs twoSrcInput oneBadWorld).countP isSuccess +
      (batchOutputs twoSrcInput oneBadWorld).countP isFailed =
      (["http://h/good.pdf", "http://h/bad"] : List String).length :=
  c5_batch_totals_invariant twoSrcInput oneBadWorld
    ["http://h/good.pdf", "http://h/bad"] rfl (by decide) (by decide)

/-- C9: a job whose input payload has a missing or empty sources list is
answered with the "No sources provided" / 400 error record, and no fetch
(hence no conversion or export) is attempted: the response is the same
constant for every world. -/
theorem c9_no_sources_early_error (i : JobInput) (w : World)
    (h : i.sources.getD [] = []) :
    handler i w = .errorResp "No sources provided" 400 ∧
    attemptedFetches i = [] := by
  constructor <;> simp [handler, attemptedFetches, h]

/-- Witness for C9: both the absent sources key and the explicit empty
list trigger the early error, under a world whose fetches would fail. -/
theorem c9_no_sources_witness :
    (handler { sources := none } downWorld = .errorResp "No sources provided" 400 ∧
     attemptedFetches { sources := none } = []) ∧
    (handler { sources := some [] } downWorld = .errorResp "No sources provided" 400 ∧
     attemptedFetches { sources := some [] } = []) :=
  ⟨c9_no_sources_early_error { sources := none } downWorld rfl,
   c9_no_sources_early_error { sources := some [] } downWorld rfl⟩

/-- C10: the include_images input field is read but never used, so two
jobs identical except for include_images produce identical handler
results in every world. -/
theorem c10_include_images_no_effect (i : JobInput) (w : World)
    (b1 b2 : Option Bool) :
    handler { i with include_images := b1 } w =
    handler { i with include_images := b2 } w := rfl

/-- Concrete single-document request used by the C8 theorems. -/
def sampleRequest : ProcessRequest := { document_url := "http://h/page.html" }

/-- C8 counterexample: the single-document path has no request fields
besides the URL (ProcessRequest above carries only document_url), and at
this concrete input the handler exports markdown with the fixed limits —
no supplied field selected that format or those limits.  The document
has a distinct html export, so the markdown choice is observable. -/
theorem c8_counterexample_fixed_markdown :
    process_document "high" sampleRequest okWorld =
      .ok { content := "md-export"
            metadata :=
              { source := "http://h/page.html"
                filename := "page.html"
                page_count := some 3
                export_format := "markdown"
                device_capability := "high"
                enrichments_applied :=
                  { code_enrichment := true, formula_enrichment := true
                    picture_classification := true, picture_description := true
                    table_structure := true, ocr := true }
                enrichment_stats :=
                  { code_blocks := 0, formulas := 1, images := 2, tables := 1 } }
            status := "success" } ∧
    sampleDoc.export_to_html ≠ "md-export" ∧
    processorConvertArgs =
      { max_num_pages := none, max_file_size := some (100 * 1024 * 1024) } := by
  refine ⟨rfl, by decide, by decide⟩

/-- C8 (amended): a process request carries only the document URL; the
single-document handler always converts with the fixed limits (no page
limit, 100 MiB size limit) and always returns the markdown export, for
every tier, request and world in which fetch and conversion succeed. -/
theorem c8_request_fields_fixed_config (tier : String) (req : ProcessRequest)
    (w : World) (b : String) (doc : Document)
    (hf : w.fetch req.document_url = .ok b)
    (hc : w.convert (filenameOf req.document_url) b processorConvertArgs = .ok doc) :
    process_document tier req w =
      .ok { content := doc.export_to_markdown
            metadata :=
              { source := req.document_url
                filename := filenameOf req.document_url
                page_count := doc.pages.map List.length
                export_format := "markdown"
                device_capability := tier
                enrichments_applied := enrichment_flags tier
                enrichment_stats := enrichment_stats doc }
            status := "success" } ∧
    processorConvertArgs =
      { max_num_pages := none, max_file_size := some (100 * 1024 * 1024) } := by
  have hml : pyLower "markdown" = "markdown" := by decide
  constructor
  · simp [process_document, processorHandler, hf, hc, exportContent,
      processorExportFormat, hml]
  · decide

/-- Witness for C8 (amended) at a concrete tier, request and world. -/
theorem c8_request_fields_fixed_config_witness :
    process_document "medium" sampleRequest okWorld =
      .ok { content := sampleDoc.export_to_markdown
            metadata :=
              { source := sampleRequest.document_url
                filename := filenameOf sampleRequest.document_url
                page_count := sampleDoc.pages.map List.length
                export_format := "markdown"
                device_capability := "medium"
                enrichments_applied := enrichment_flags "medium"
                enrichment_stats := enrichment_stats sampleDoc }
            status := "success" } ∧
    processorConvertArgs =
      { max_num_pages := none, max_file_size := some (100 * 1024 * 1024) } :=
  c8_request_fields_fixed_config "medium" sampleRequest okWorld "bytes" sampleDoc
    rfl rfl

end DocProc
